import Mathlib

/-
Verification of the mio-channel crate (src/channel.rs, src/lib.rs): a wrapper
of the standard mpsc channel whose Receiver implements mio's event::Source.
The shared state is modelled as a pure record; every operation is a function
from the state to a result together with the next state. `Waker::new` may fail
with an I/O error (modelled by a flag on the Registry), and `Waker::wake` may
fail (modelled by a flag passed to send), mirroring the two fallible mio calls.
-/

namespace MioChannel

/-- mio::Token: an opaque registration token (a usize in mio). -/
structure Token where
  val : Nat
deriving DecidableEq, Repr

/-- mio::Interest: the interest argument of register/reregister.
The source binds it to `_` and never reads it. -/
inductive Interest
  | readable
  | writable
deriving DecidableEq, Repr

/-- io::Error, restricted to the two places the source can produce one:
`Waker::new` inside register/reregister, and `Waker::wake` inside send. -/
inductive IoError
  | wakerNew
  | wake
deriving DecidableEq, Repr

/-- mio::Waker: a wake handle bound to the token it was created with. -/
structure Waker where
  token : Token
deriving DecidableEq, Repr

/-- mio::Registry, reduced to the one observable the source depends on:
whether `Waker::new(registry, token)` succeeds against it. -/
structure Registry where
  wakerNewOk : Bool
deriving DecidableEq, Repr

/-- `Waker::new(registry, token)`: creates a handle bound to `token`, or
fails with an I/O error when the registry rejects the creation. -/
def Waker.new (registry : Registry) (token : Token) : Except IoError Waker :=
  if registry.wakerNewOk then .ok ⟨token⟩ else .error .wakerNew

/-- `Waker::wake(&self)`: triggering the handle, which may itself fail;
`wakeOk` says whether this particular trigger succeeds. -/
def Waker.wake (_w : Waker) (wakeOk : Bool) : Except IoError Unit :=
  if wakeOk then .ok () else .error .wake

/-- mpsc::SendError<T>: send failed because the receiver is gone; carries
the value back to the caller. -/
structure SendError (T : Type) where
  val : T
deriving DecidableEq, Repr

/-- mpsc::TrySendError<T>: try_send failed; carries the value back. -/
inductive TrySendError (T : Type)
  | full (val : T)
  | disconnected (val : T)
deriving DecidableEq, Repr

/-- mpsc::TryRecvError. -/
inductive TryRecvError
  | empty
  | disconnected
deriving DecidableEq, Repr

/-- The shared state of one channel: the mpsc queue (with its bound, `none`
for the unbounded variant), the Arc<Mutex<Option<Waker>>> slot shared by all
sender clones and the receiver, and whether each endpoint is still alive. -/
structure ChannelState (T : Type) where
  queue : List T
  bound : Option Nat
  waker : Option Waker
  senderAlive : Bool
  receiverAlive : Bool
deriving DecidableEq, Repr

/-- `channel()`: fresh unbounded channel; the waker slot starts empty
(`Arc::new(Mutex::new(None))`). -/
def channel (T : Type) : ChannelState T :=
  { queue := [], bound := none, waker := none,
    senderAlive := true, receiverAlive := true }

/-- `sync_channel(bound)`: fresh bounded channel; the waker slot starts
empty. -/
def sync_channel (T : Type) (bound : Nat) : ChannelState T :=
  { queue := [], bound := some bound, waker := none,
    senderAlive := true, receiverAlive := true }

/-- Whether the bounded queue is at capacity (always false when unbounded). -/
def queueFull {T : Type} (s : ChannelState T) : Bool :=
  match s.bound with
  | some b => decide (b ≤ s.queue.length)
  | none => false

/-- `mpsc::Sender::send` / post-blocking `mpsc::SyncSender::send`: enqueue,
or fail with SendError carrying the value once the receiver is dropped. -/
def mpscSend {T : Type} (t : T) (s : ChannelState T) :
    Except (SendError T) (ChannelState T) :=
  if s.receiverAlive then .ok { s with queue := s.queue ++ [t] }
  else .error ⟨t⟩

/-- `mpsc::SyncSender::try_send`: never blocks; fails with full when the
queue is at capacity, with disconnected when the receiver is dropped. -/
def mpscTrySend {T : Type} (t : T) (s : ChannelState T) :
    Except (TrySendError T) (ChannelState T) :=
  if s.receiverAlive then
    if queueFull s then .error (.full t)
    else .ok { s with queue := s.queue ++ [t] }
  else .error (.disconnected t)

namespace Receiver

/-- `Receiver::try_recv`: direct delegation to `mpsc::Receiver::try_recv`:
next value if queued, else Empty while senders live, Disconnected once all
senders are gone and the buffer is drained. -/
def tryRecv {T : Type} (s : ChannelState T) :
    Except TryRecvError T × ChannelState T :=
  match s.queue with
  | [] => (if s.senderAlive then .error .empty else .error .disconnected, s)
  | t :: rest => (.ok t, { s with queue := rest })

/-- `event::Source::register` for Receiver: lock the slot; if it is empty,
store `Some(Waker::new(registry, token)?)`; either way return Ok. The
interest argument is bound to `_` in the source. -/
def register {T : Type} (registry : Registry) (token : Token) (_i : Interest)
    (s : ChannelState T) : Except IoError Unit × ChannelState T :=
  match s.waker with
  | some _ => (.ok (), s)
  | none =>
    match Waker.new registry token with
    | .ok w => (.ok (), { s with waker := some w })
    | .error e => (.error e, s)

/-- `event::Source::reregister` for Receiver: lock the slot and overwrite it
with `Some(Waker::new(registry, token)?)`; the `?` propagates a creation
failure before any assignment. -/
def reregister {T : Type} (registry : Registry) (token : Token) (_i : Interest)
    (s : ChannelState T) : Except IoError Unit × ChannelState T :=
  match Waker.new registry token with
  | .ok w => (.ok (), { s with waker := some w })
  | .error e => (.error e, s)

/-- `event::Source::deregister` for Receiver: lock the slot, set it to None,
return Ok. -/
def deregister {T : Type} (_registry : Registry) (s : ChannelState T) :
    Except IoError Unit × ChannelState T :=
  (.ok (), { s with waker := none })

end Receiver

/-- The outcome of a send-side call: the returned Result, the next state,
and whether `waker.wake()` was invoked. -/
structure SendOut (T E : Type) where
  result : Except E Unit
  state : ChannelState T
  woke : Bool
deriving Repr

namespace Sender

/-- `Sender::send`: `self.tx.send(t)?;` then, if the slot holds a waker,
`let _ = waker.wake();` (the trigger's own result is dropped), then `Ok(())`.
`wakeOk` says whether that dropped trigger would have succeeded. -/
def send {T : Type} (wakeOk : Bool) (t : T) (s : ChannelState T) :
    SendOut T (SendError T) :=
  match mpscSend t s with
  | .error e => ⟨.error e, s, false⟩
  | .ok s1 =>
    match s1.waker with
    | some w =>
      let _ := Waker.wake w wakeOk
      ⟨.ok (), s1, true⟩
    | none => ⟨.ok (), s1, false⟩

end Sender

namespace SyncSender

/-- `SyncSender::send`: same shape as `Sender::send` (the source duplicates
the body): enqueue via the blocking mpsc send, then fire-and-forget wake. -/
def send {T : Type} (wakeOk : Bool) (t : T) (s : ChannelState T) :
    SendOut T (SendError T) :=
  match mpscSend t s with
  | .error e => ⟨.error e, s, false⟩
  | .ok s1 =>
    match s1.waker with
    | some w =>
      let _ := Waker.wake w wakeOk
      ⟨.ok (), s1, true⟩
    | none => ⟨.ok (), s1, false⟩

/-- `SyncSender::try_send`: `self.tx.try_send(t)?;` then fire-and-forget
wake, then `Ok(())`. -/
def trySend {T : Type} (wakeOk : Bool) (t : T) (s : ChannelState T) :
    SendOut T (TrySendError T) :=
  match mpscTrySend t s with
  | .error e => ⟨.error e, s, false⟩
  | .ok s1 =>
    match s1.waker with
    | some w =>
      let _ := Waker.wake w wakeOk
      ⟨.ok (), s1, true⟩
    | none => ⟨.ok (), s1, false⟩

end SyncSender

/-- The registration state machine's abstract states (spec §4.4). -/
inductive RegState
  | unregistered
  | registered (token : Token)
deriving DecidableEq, Repr

/-- Abstraction from the waker slot to the registration state. -/
def absReg {T : Type} (s : ChannelState T) : RegState :=
  match s.waker with
  | none => .unregistered
  | some w => .registered w.token

/-- Names the `pub use` line of lib.rs re-exports at the crate root:
`pub use channel::{channel, Sender, Receiver};`. The `channel` module itself
is declared `mod channel;` (private), so these are the only user-reachable
items. -/
def cratePublicItems : List String := ["channel", "Sender", "Receiver"]

/-- Public items defined inside the (private) channel module. -/
def channelModuleItems : List String :=
  ["channel", "sync_channel", "Receiver", "Sender", "SyncSender"]

/-- C2: on an empty waker slot, register creates a handle bound to `token`
and stores it, returning Ok (given handle creation succeeds); on an occupied
slot, register is a no-op for every registry — the stored handle and its
token are untouched, no handle is created, and the call returns Ok. -/
theorem c2_register_first_wins {T : Type} (registry : Registry) (token : Token)
    (i : Interest) (s : ChannelState T) :
    (s.waker = none → registry.wakerNewOk = true →
      Receiver.register registry token i s =
        (.ok (), { s with waker := some ⟨token⟩ })) ∧
    (∀ w, s.waker = some w → Receiver.register registry token i s = (.ok (), s)) := by
  constructor
  · intro hnone hok
    simp [Receiver.register, Waker.new, hnone, hok]
  · intro w hw
    simp [Receiver.register, hw]

theorem c2_register_first_wins_witness :
    Receiver.register ⟨true⟩ ⟨7⟩ .readable (channel Nat) =
      (.ok (), { channel Nat with waker := some ⟨⟨7⟩⟩ }) :=
  (c2_register_first_wins ⟨true⟩ ⟨7⟩ .readable (channel Nat)).1 rfl rfl

/-- C3: reregister creates a handle bound to `token` and stores it in the
slot, replacing whatever the slot previously held (including nothing), and
returns Ok when handle creation succeeds. -/
theorem c3_reregister_replaces {T : Type} (registry : Registry) (token : Token)
    (i : Interest) (s : ChannelState T) (hok : registry.wakerNewOk = true) :
    Receiver.reregister registry token i s =
      (.ok (), { s with waker := some ⟨token⟩ }) := by
  simp [Receiver.reregister, Waker.new, hok]

theorem c3_reregister_replaces_witness :
    Receiver.reregister ⟨true⟩ ⟨9⟩ .readable
        { channel Nat with waker := some ⟨⟨3⟩⟩ } =
      (.ok (), { channel Nat with waker := some ⟨⟨9⟩⟩ }) :=
  c3_reregister_replaces ⟨true⟩ ⟨9⟩ .readable
    { channel Nat with waker := some ⟨⟨3⟩⟩ } rfl

/-- C4: deregister sets the slot to empty regardless of its previous
content and always returns Ok. -/
theorem c4_deregister_clears {T : Type} (registry : Registry)
    (s : ChannelState T) :
    Receiver.deregister registry s = (.ok (), { s with waker := none }) := rfl

/-- C5: the waker slot realises the two-state registration machine: both
constructors start Unregistered; register moves Unregistered to
Registered(token) and is a self-loop on Registered; reregister moves any
state to Registered(token); deregister moves any state to Unregistered; the
slot never holds two handles at once. -/
theorem c5_registration_state_machine {T : Type} (registry : Registry)
    (token : Token) (i : Interest) (b : Nat) (s : ChannelState T)
    (hok : registry.wakerNewOk = true) :
    absReg (channel T) = .unregistered ∧
    absReg (sync_channel T b) = .unregistered ∧
    (absReg s = .unregistered →
      absReg (Receiver.register registry token i s).2 = .registered token) ∧
    (∀ t0, absReg s = .registered t0 →
      absReg (Receiver.register registry token i s).2 = .registered t0) ∧
    absReg (Receiver.reregister registry token i s).2 = .registered token ∧
    absReg (Receiver.deregister registry s).2 = .unregistered ∧
    (∀ w w', s.waker = some w → s.waker = some w' → w = w') := by
  refine ⟨rfl, rfl, ?_, ?_, ?_, rfl, ?_⟩
  · intro h
    cases hw : s.waker with
    | none => simp [Receiver.register, Waker.new, hok, hw, absReg]
    | some w => simp [absReg, hw] at h
  · intro t0 h
    cases hw : s.waker with
    | none => simp [absReg, hw] at h
    | some w =>
      simp [absReg, hw] at h
      simp [Receiver.register, hw, absReg, h]
  · simp [Receiver.reregister, Waker.new, hok, absReg]
  · intro w w' hw hw'
    rw [hw] at hw'
    exact Option.some_inj.mp hw'

theorem c5_registration_state_machine_witness :
    absReg (Receiver.register ⟨true⟩ ⟨4⟩ .readable (channel Nat)).2 =
      .registered ⟨4⟩ :=
  (c5_registration_state_machine ⟨true⟩ ⟨4⟩ .readable 0 (channel Nat)
    rfl).2.2.1 rfl

/-- C6: the interest argument of register and reregister has no influence:
for any two interests the calls return the same result and leave the same
state. -/
theorem c6_interest_ignored {T : Type} (registry : Registry) (token : Token)
    (i1 i2 : Interest) (s : ChannelState T) :
    Receiver.register registry token i1 s = Receiver.register registry token i2 s ∧
    Receiver.reregister registry token i1 s = Receiver.reregister registry token i2 s :=
  ⟨rfl, rfl⟩

/-- C9: when wake-handle creation fails, register (on an empty slot) and
reregister return the I/O error and leave the slot — indeed the whole
state — unchanged. -/
theorem c9_creation_failure_leaves_slot {T : Type} (registry : Registry)
    (token : Token) (i : Interest) (s : ChannelState T)
    (hfail : registry.wakerNewOk = false) :
    (s.waker = none →
      Receiver.register registry token i s = (.error .wakerNew, s)) ∧
    Receiver.reregister registry token i s = (.error .wakerNew, s) := by
  constructor
  · intro hnone
    simp [Receiver.register, Waker.new, hnone, hfail]
  · simp [Receiver.reregister, Waker.new, hfail]

theorem c9_creation_failure_leaves_slot_witness :
    Receiver.register ⟨false⟩ ⟨2⟩ .readable (channel Nat) =
      (.error .wakerNew, channel Nat) :=
  (c9_creation_failure_leaves_slot ⟨false⟩ ⟨2⟩ .readable (channel Nat) rfl).1 rfl

/-- C1: whenever send (Sender or SyncSender) or try_send enqueues
successfully, the call returns Ok; the wake handle is triggered exactly when
the slot holds one; and the outcome of the dropped wake trigger (`w1` versus
`w2`) changes nothing — result, state and wake flag are identical. -/
theorem c1_successful_enqueue_reports_success {T : Type} (t : T)
    (s : ChannelState T) (w1 w2 : Bool)
    (hra : s.receiverAlive = true) (hnf : queueFull s = false) :
    (Sender.send w1 t s).result = .ok () ∧
    (Sender.send w1 t s).woke = s.waker.isSome ∧
    Sender.send w1 t s = Sender.send w2 t s ∧
    (SyncSender.send w1 t s).result = .ok () ∧
    (SyncSender.send w1 t s).woke = s.waker.isSome ∧
    SyncSender.send w1 t s = SyncSender.send w2 t s ∧
    (SyncSender.trySend w1 t s).result = .ok () ∧
    (SyncSender.trySend w1 t s).woke = s.waker.isSome ∧
    SyncSender.trySend w1 t s = SyncSender.trySend w2 t s := by
  cases hw : s.waker <;>
    simp [Sender.send, SyncSender.send, SyncSender.trySend,
      mpscSend, mpscTrySend, hra, hnf, hw]

theorem c1_successful_enqueue_reports_success_witness :
    (Sender.send false (5 : Nat)
        { channel Nat with waker := some ⟨⟨1⟩⟩ }).result = .ok () :=
  (c1_successful_enqueue_reports_success 5
    { channel Nat with waker := some ⟨⟨1⟩⟩ } false true rfl rfl).1

/-- C7: the error taxonomy: send fails with a disconnected error carrying
the value exactly when the receiver is gone; try_send additionally fails
full (carrying the value) when capacity is exhausted; try_recv fails empty
when the queue is drained and senders live, disconnected when the queue is
drained and all senders are gone, and returns the head value otherwise. -/
theorem c7_error_taxonomy {T : Type} (t : T) (s : ChannelState T) (w : Bool) :
    ((Sender.send w t s).result = .error ⟨t⟩ ↔ s.receiverAlive = false) ∧
    ((SyncSender.send w t s).result = .error ⟨t⟩ ↔ s.receiverAlive = false) ∧
    (s.receiverAlive = false →
      (SyncSender.trySend w t s).result = .error (.disconnected t)) ∧
    (s.receiverAlive = true → queueFull s = true →
      (SyncSender.trySend w t s).result = .error (.full t)) ∧
    (s.queue = [] → s.senderAlive = true →
      (Receiver.tryRecv s).1 = .error .empty) ∧
    (s.queue = [] → s.senderAlive = false →
      (Receiver.tryRecv s).1 = .error .disconnected) ∧
    (∀ v rest, s.queue = v :: rest → (Receiver.tryRecv s).1 = .ok v) := by
  refine ⟨?_, ?_, ?_, ?_, ?_, ?_, ?_⟩
  · cases hra : s.receiverAlive
    · simp [Sender.send, mpscSend, hra]
    · cases hw : s.waker <;> simp [Sender.send, mpscSend, hra, hw]
  · cases hra : s.receiverAlive
    · simp [SyncSender.send, mpscSend, hra]
    · cases hw : s.waker <;> simp [SyncSender.send, mpscSend, hra, hw]
  · intro hra
    simp [SyncSender.trySend, mpscTrySend, hra]
  · intro hra hf
    simp [SyncSender.trySend, mpscTrySend, hra, hf]
  · intro hq hsa
    simp [Receiver.tryRecv, hq, hsa]
  · intro hq hsa
    simp [Receiver.tryRecv, hq, hsa]
  · intro v rest hq
    simp [Receiver.tryRecv, hq]

theorem c7_error_taxonomy_witness :
    (Receiver.tryRecv (channel Nat)).1 = .error .empty :=
  (c7_error_taxonomy 0 (channel Nat) true).2.2.2.2.1 rfl rfl

/-- C10: when send or try_send fails — disconnected, or full for try_send —
no wake is triggered and the state (in particular the waker slot) is
untouched: the enqueue error returns before the waker code runs. -/
theorem c10_failed_send_no_wake {T : Type} (t : T) (s : ChannelState T)
    (w : Bool) :
    (s.receiverAlive = false →
      Sender.send w t s = ⟨.error ⟨t⟩, s, false⟩ ∧
      SyncSender.send w t s = ⟨.error ⟨t⟩, s, false⟩ ∧
      SyncSender.trySend w t s = ⟨.error (.disconnected t), s, false⟩) ∧
    (s.receiverAlive = true → queueFull s = true →
      SyncSender.trySend w t s = ⟨.error (.full t), s, false⟩) := by
  constructor
  · intro hra
    refine ⟨?_, ?_, ?_⟩ <;>
      simp [Sender.send, SyncSender.send, SyncSender.trySend,
        mpscSend, mpscTrySend, hra]
  · intro hra hf
    simp [SyncSender.trySend, mpscTrySend, hra, hf]

theorem c10_failed_send_no_wake_witness :
    Sender.send true (5 : Nat) { channel Nat with receiverAlive := false } =
      ⟨.error ⟨5⟩, { channel Nat with receiverAlive := false }, false⟩ :=
  ((c10_failed_send_no_wake 5
    { channel Nat with receiverAlive := false } true).1 rfl).1

/-- C8: the claim says both creation operations are reachable by users of
the crate; in the code, lib.rs re-exports only channel, Sender and Receiver
from the private channel module, so sync_channel (and SyncSender) exist in
the module but are not part of the crate's public interface. -/
theorem c8_sync_channel_not_exported :
    "channel" ∈ cratePublicItems ∧
    "sync_channel" ∈ channelModuleItems ∧
    "sync_channel" ∉ cratePublicItems ∧
    "SyncSender" ∉ cratePublicItems := by
  refine ⟨?_, ?_, ?_, ?_⟩ <;> simp [cratePublicItems, channelModuleItems]

end MioChannel
